import Mathlib

/-!
Verification development for the DMOD communication and partitioner-service
slice: the dataset-management message types, the scheduler request/response
types, the websocket service task lookup, and the partitioning orchestration
loop.  Python classes are embedded shallowly: dynamic dict payloads become
association lists over a value type `DVal`, exceptions become `Except PyErr`,
and the external collaborators (data service, Docker executor, job store) are
explicit function parameters mirroring the collaborator contracts.
-/

namespace DMOD

/-- Exceptions that the embedded code can raise, mirroring the Python
exception types that appear in the modelled sources. -/
inductive PyErr
  | keyError (key : String)
  | attributeError (msg : String)
  | runtimeError (msg : String)
  | dmodRuntimeError (msg : String)
  | indexError (msg : String)
  | typeError (msg : String)
deriving DecidableEq, Repr

/-- Characters of a string with leading and trailing whitespace removed,
embedding Python `str.strip()` structurally. -/
def pyStripChars (l : List Char) : List Char :=
  ((l.dropWhile Char.isWhitespace).reverse.dropWhile Char.isWhitespace).reverse

/-- Python `str.strip()`. -/
def pyStrip (s : String) : String := ⟨pyStripChars s.data⟩

/-- Python `str.upper()`. -/
def pyUpper (s : String) : String := ⟨s.data.map Char.toUpper⟩

/-- Management actions for dataset-management messages, from
`ManagementAction` in `dataset_management_message.py`.  Each Python enum
member carries a uid and two booleans (requires name, requires category);
those are the functions below. -/
inductive ManagementAction
  | UNKNOWN
  | CREATE
  | ADD_DATA
  | REMOVE_DATA
  | DELETE
  | SEARCH
  | QUERY
  | CLOSE_AWAITING
deriving DecidableEq, Repr

namespace ManagementAction

/-- First component of each enum member's value tuple in the source. -/
def uid : ManagementAction → Int
  | .UNKNOWN => -1
  | .CREATE => 1
  | .ADD_DATA => 2
  | .REMOVE_DATA => 3
  | .DELETE => 4
  | .SEARCH => 5
  | .QUERY => 6
  | .CLOSE_AWAITING => 7

/-- Second component of each member's tuple: whether the action requires a
dataset name (`requires_dataset_name` property). -/
def requires_dataset_name : ManagementAction → Bool
  | .UNKNOWN => false
  | .CREATE => true
  | .ADD_DATA => true
  | .REMOVE_DATA => true
  | .DELETE => true
  | .SEARCH => false
  | .QUERY => true
  | .CLOSE_AWAITING => false

/-- Third component of each member's tuple: whether the action requires a
data category (`requires_data_category` property). -/
def requires_data_category : ManagementAction → Bool
  | .UNKNOWN => false
  | .CREATE => true
  | .ADD_DATA => false
  | .REMOVE_DATA => false
  | .DELETE => false
  | .SEARCH => true
  | .QUERY => false
  | .CLOSE_AWAITING => false

/-- Python `value.name` for each enum member. -/
def pyName : ManagementAction → String
  | .UNKNOWN => "UNKNOWN"
  | .CREATE => "CREATE"
  | .ADD_DATA => "ADD_DATA"
  | .REMOVE_DATA => "REMOVE_DATA"
  | .DELETE => "DELETE"
  | .SEARCH => "SEARCH"
  | .QUERY => "QUERY"
  | .CLOSE_AWAITING => "CLOSE_AWAITING"

/-- Members of the enum in declaration order, as Python iterates them in
`for value in cls`. -/
def allMembers : List ManagementAction :=
  [.UNKNOWN, .CREATE, .ADD_DATA, .REMOVE_DATA, .DELETE, .SEARCH, .QUERY, .CLOSE_AWAITING]

/-- Embedding of `ManagementAction.get_for_name`: strip and uppercase the
input, compare against each member's (uppercased) name in declaration order,
defaulting to `UNKNOWN`. -/
def get_for_name (name_str : String) : ManagementAction :=
  let cleaned_up_str := pyUpper (pyStrip name_str)
  match allMembers.find? (fun value => pyUpper value.pyName == cleaned_up_str) with
  | some value => value
  | none => .UNKNOWN

end ManagementAction

/-- Modelled from the spec: data categories from `dmod.core.meta_data`
(module not under the provided sources); the spec names `HYDROFABRIC` and
`CONFIG` and the usual peer categories. -/
inductive DataCategory
  | CONFIG
  | FORCING
  | HYDROFABRIC
  | OBSERVATION
  | OUTPUT
deriving DecidableEq, Repr

/-- Modelled from the spec: data formats from `dmod.core.meta_data` (module
not under the provided sources); only the two formats the partitioner service
uses are needed. -/
inductive DataFormat
  | NGEN_GEOJSON_HYDROFABRIC
  | NGEN_PARTITION_CONFIG
deriving DecidableEq, Repr

/-- Dynamic (Python) values as they occur in message `data` dicts, JSON
objects, and discrete-restriction value lists. -/
inductive DVal
  | null
  | bool (b : Bool)
  | int (n : Int)
  | str (s : String)
  | action (a : ManagementAction)
  | category (c : DataCategory)

/-- Python dicts with string keys, as insertion-ordered association lists. -/
def Dict : Type := List (String × DVal)

/-- Lookup of a key in a dict; `none` models a `KeyError` on direct
subscripting, or a failed `in` test. -/
def dictGet (d : Dict) (k : String) : Option DVal :=
  match List.find? (fun p => p.1 == k) d with
  | some p => some p.2
  | none => none

/-- Python `k in d`. -/
def dictContains (d : Dict) (k : String) : Bool :=
  (dictGet d k).isSome

/-- Python `d[k] = v`: replace the value in place if the key exists,
otherwise append the new pair at the end (dict insertion order). -/
def dictSet (d : Dict) (k : String) (v : DVal) : Dict :=
  match d with
  | [] => [(k, v)]
  | p :: rest => if p.1 == k then (k, v) :: rest else p :: dictSet rest k v

/-- Modelled from the spec: a discrete restriction from
`dmod.core.meta_data` (module not under the provided sources) binds a named
variable to a finite list of allowed values.  The Python field `variable` is
`var` here since `variable` is a Lean keyword. -/
structure DiscreteRestriction where
  var : String
  values : List DVal

/-- Modelled from the spec: a data domain from `dmod.core.meta_data` (module
not under the provided sources): a data format plus discrete restrictions
keyed by variable name; iteration over `discrete_restrictions.items()` is
iteration over this list in order. -/
structure DataDomain where
  data_format : DataFormat
  discrete_restrictions : List DiscreteRestriction

/-- Modelled from the spec: a job data requirement from
`dmod.core.meta_data` (module not under the provided sources): a domain, an
input flag, a category, and an optional fulfilling dataset name. -/
structure DataRequirement where
  domain : DataDomain
  is_input : Bool
  category : DataCategory
  fulfilled_by : Option String

/-- Modelled from the spec: job execution steps from `dmod.scheduler.job`
(module not under the provided sources); the in-scope steps plus labels for
the out-of-scope phases. -/
inductive JobExecStep
  | AWAITING_PARTITIONING
  | AWAITING_ALLOCATION
  | PARTITIONING_FAILED
  | AWAITING_SCHEDULING
  | RUNNING
  | COMPLETED
deriving DecidableEq, Repr

/-- Modelled from the spec: the job record from `dmod.scheduler.job` (module
not under the provided sources): id, ordered data requirements, cpu count,
and the current status step. -/
structure Job where
  job_id : String
  data_requirements : List DataRequirement
  cpu_count : Nat
  status_step : JobExecStep

/-- A dataset-management message, from `DatasetManagementMessage.__init__`
field assignments (typed view: callers in the service construct it with real
`ManagementAction` and `DataCategory` objects). -/
structure DatasetManagementMessage where
  action : ManagementAction
  dataset_name : Option String
  is_read_only_dataset : Bool
  category : Option DataCategory
  data : Option String
  data_location : Option String
  is_pending_data : Bool
  data_domain : Option DataDomain

/-- Embedding of `DatasetManagementMessage.__init__`: the two sanity checks
raise `RuntimeError` when the action requires a dataset name or a data
category that was not supplied; otherwise the fields are stored (the domain
starts out `None` and is set through the `data_domain` setter). -/
def DatasetManagementMessage.init (action : ManagementAction) (dataset_name : Option String)
    (is_read_only_dataset : Bool) (category : Option DataCategory) (data : Option String)
    (data_location : Option String) (is_pending_data : Bool) :
    Except PyErr DatasetManagementMessage :=
  if dataset_name.isNone && action.requires_dataset_name then
    .error (.runtimeError "Cannot create DatasetManagementMessage for action without a dataset name")
  else if category.isNone && action.requires_data_category then
    .error (.runtimeError "Cannot create DatasetManagementMessage for action without a data category")
  else
    .ok ⟨action, dataset_name, is_read_only_dataset, category, data, data_location, is_pending_data, none⟩

/-- A dataset-management response.  Modelled from the spec for the `Response`
base class (its module is not under the provided sources): it carries
`success`, `reason`, `message` and the open `data` map verbatim. -/
structure DatasetManagementResponse where
  success : Bool
  reason : String
  message : String
  data : Dict

/-- Embedding of `DatasetManagementResponse.__init__`: a `None` data map
becomes a one-entry map with `is_awaiting` set to `False`; a supplied map
missing the `is_awaiting` key gets that key set to `False`; otherwise the
map is passed through unchanged. -/
def DatasetManagementResponse.init (success : Bool) (reason : String) (message : String)
    (data : Option Dict) : DatasetManagementResponse :=
  match data with
  | none => ⟨success, reason, message, [("is_awaiting", DVal.bool false)]⟩
  | some d =>
      if dictContains d "is_awaiting" then ⟨success, reason, message, d⟩
      else ⟨success, reason, message, dictSet d "is_awaiting" (DVal.bool false)⟩

/-- Embedding of `DatasetManagementResponse.factory_create`: fills the data
map's `action` and `is_awaiting` keys, then the optional `data_id` and
`dataset_name` keys, and delegates to the initializer. -/
def DatasetManagementResponse.factory_create (action : ManagementAction) (success : Bool)
    (reason : String) (message : String) (data : Option Dict) (is_awaiting : Bool)
    (dataset_name : Option String) (data_id : Option String) : DatasetManagementResponse :=
  let d := data.getD []
  let d := dictSet d "action" (DVal.action action)
  let d := dictSet d "is_awaiting" (DVal.bool is_awaiting)
  let d := match data_id with
    | some i => dictSet d "data_id" (DVal.str i)
    | none => d
  let d := match dataset_name with
    | some n => dictSet d "dataset_name" (DVal.str n)
    | none => d
  DatasetManagementResponse.init success reason message (some d)

/-- Embedding of the `is_awaiting` property: a direct subscript of the data
map, so `none` models the `KeyError` that a missing key would raise. -/
def DatasetManagementResponse.is_awaiting (r : DatasetManagementResponse) : Option DVal :=
  dictGet r.data "is_awaiting"

/-- Embedding of the `data_id` property: the value under `data_id` when
present, else `None`. -/
def DatasetManagementResponse.data_id (r : DatasetManagementResponse) : Option DVal :=
  dictGet r.data "data_id"

/-- Embedding of the `dataset_name` property: the value under `dataset_name`
when present, else `None`. -/
def DatasetManagementResponse.dataset_name (r : DatasetManagementResponse) : Option DVal :=
  dictGet r.data "dataset_name"

/-- Modelled from the spec: the nested model-execution request wrapped by a
scheduler request (its module is not under the provided sources); treated as
an abstract payload. -/
structure ModelExecRequest where
  payload : String
deriving DecidableEq, Repr

/-- A scheduler request message, from `SchedulerRequestMessage.__init__`
field assignments. -/
structure SchedulerRequestMessage where
  model_request : ModelExecRequest
  user_id : String
  cpus_unset : Bool
  cpus : Int
  memory_unset : Bool
  memory : Int
  allocation_paradigm : String
deriving DecidableEq, Repr

/-- Embedding of `SchedulerRequestMessage.__init__`: `None` cpus becomes 4
with the unset marker true; `None` mem becomes 500000 with the unset marker
true; an absent, `None`, or blank (whitespace-only) allocation paradigm
becomes the default `SINGLE_NODE`, while any other string is kept verbatim
(Python tests `isinstance(allocation_paradigm, str) and
allocation_paradigm.strip()`). -/
def SchedulerRequestMessage.init (model_request : ModelExecRequest) (user_id : String)
    (cpus : Option Int) (mem : Option Int) (allocation_paradigm : Option String) :
    SchedulerRequestMessage :=
  let cpusPair : Bool × Int := match cpus with
    | none => (true, 4)
    | some v => (false, v)
  let memPair : Bool × Int := match mem with
    | none => (true, 500000)
    | some v => (false, v)
  let alloc : String := match allocation_paradigm with
    | some s => if pyStrip s ≠ "" then s else "SINGLE_NODE"
    | none => "SINGLE_NODE"
  ⟨model_request, user_id, cpusPair.1, cpusPair.2, memPair.1, memPair.2, alloc⟩

/-- A scheduler request response.  Modelled from the spec for the `Response`
base class (its module is not under the provided sources): `success`,
`reason`, `message`, and the open `data` map. -/
structure SchedulerRequestResponse where
  success : Bool
  reason : String
  message : String
  data : Dict

/-- Embedding of the `job_id` property of `SchedulerRequestResponse`: the
value stored under the `job_id` key when `success` is true (with `none`
modelling the `KeyError` a missing key would raise), and the sentinel `-1`
whenever `success` is false. -/
def SchedulerRequestResponse.job_id (r : SchedulerRequestResponse) : Option DVal :=
  if r.success then dictGet r.data "job_id" else some (DVal.int (-1))

/-- Python list subscripting `xs[i]` with an `int` index: non-negative
indices address from the front, negative indices from the back, and
out-of-range indices of either sign raise `IndexError` (here `none`). -/
def pyListGetElem {α : Type} (xs : List α) (i : Int) : Option α :=
  if 0 ≤ i then xs.get? i.toNat
  else if 0 ≤ (xs.length : Int) + i then xs.get? ((xs.length : Int) + i).toNat
  else none

/-- Embedding of `WebSocketInterface.get_task_object`: when
`len(self._scheduled_tasks) > index` the list is subscripted with the raw
index (so an out-of-range index raises `IndexError`); otherwise the function
falls through and returns `None`. -/
def get_task_object {α : Type} (scheduled_tasks : List α) (index : Int) :
    Except PyErr (Option α) :=
  if index < (scheduled_tasks.length : Int) then
    match pyListGetElem scheduled_tasks index with
    | some t => .ok (some t)
    | none => .error (.indexError "list index out of range")
  else
    .ok none

/-- Python truth of `v is None` for a dynamic value. -/
def pyIsNone : DVal → Bool
  | .null => true
  | _ => false

/-- Dynamic attribute access `action.requires_dataset_name`: succeeds only
when the value actually is a `ManagementAction`; any other value raises
`AttributeError`. -/
def requiresDatasetNameDyn : DVal → Except PyErr Bool
  | .action a => .ok a.requires_dataset_name
  | _ => .error (.attributeError "requires_dataset_name")

/-- Dynamic attribute access `action.requires_data_category`, as above. -/
def requiresDataCategoryDyn : DVal → Except PyErr Bool
  | .action a => .ok a.requires_data_category
  | _ => .error (.attributeError "requires_data_category")

/-- A dataset-management message as built by the deserialization factory,
holding the raw dynamic values passed through `__init__` (Python performs no
type coercion on them). -/
structure DatasetManagementMessageDyn where
  action : DVal
  dataset_name : DVal
  is_read_only_dataset : DVal
  category : DVal
  data : DVal
  data_location : DVal
  is_pending_data : DVal
  data_domain : Option DataDomain

/-- Embedding of `DatasetManagementMessage.__init__` on dynamic arguments as
the factory calls it: Python short-circuits `dataset_name is None and
action.requires_dataset_name`, so the attribute accesses (which raise
`AttributeError` on a non-enum action value) happen only when the
corresponding argument is `None`; a failed requirement raises
`RuntimeError`. -/
def DatasetManagementMessage.initDyn (action dataset_name is_read_only_dataset category
    data data_location is_pending_data : DVal) : Except PyErr DatasetManagementMessageDyn := do
  if pyIsNone dataset_name then
    let r ← requiresDatasetNameDyn action
    if r then
      throw (.runtimeError "Cannot create DatasetManagementMessage for action without a dataset name")
  if pyIsNone category then
    let r ← requiresDataCategoryDyn action
    if r then
      throw (.runtimeError "Cannot create DatasetManagementMessage for action without a data category")
  return ⟨action, dataset_name, is_read_only_dataset, category, data, data_location,
          is_pending_data, none⟩

/-- Lookup of a required key, as Python subscripting `json_obj[k]`: a
missing key raises `KeyError`. -/
def jsonKeyLookup (json_obj : Dict) (k : String) : Except PyErr DVal :=
  match dictGet json_obj k with
  | some v => .ok v
  | none => .error (.keyError k)

/-- The body of `factory_init_from_deserialized_json`, split at the
`try` boundary: the four guarded lookups before the `try` use `in` tests and
cannot raise, while everything inside the `try` block is an `Except`
computation.  `domParse` stands for
`DataDomain.factory_init_from_deserialized_json` (its module is not under
the provided sources), so the result holds for every behavior of that
nested parser: it may return a domain, return `None`, or raise. -/
def DatasetManagementMessage.factoryTry
    (domParse : DVal → Except PyErr (Option DataDomain)) (json_obj : Dict) :
    Except PyErr DatasetManagementMessageDyn := do
  let dataset_name := (dictGet json_obj "dataset_name").getD .null
  let category := (dictGet json_obj "category").getD .null
  let raw_data := (dictGet json_obj "data").getD .null
  let data_loc := (dictGet json_obj "data_location").getD .null
  let action ← jsonKeyLookup json_obj "action"
  let read_only ← jsonKeyLookup json_obj "read_only"
  let pending ← jsonKeyLookup json_obj "pending_data"
  let obj ← DatasetManagementMessage.initDyn action dataset_name read_only category raw_data
      data_loc pending
  match dictGet json_obj "data_domain" with
  | some dv => do
      let dom ← domParse dv
      return { obj with data_domain := dom }
  | none => return obj

/-- Embedding of `DatasetManagementMessage.factory_init_from_deserialized_json`:
the whole `try` body runs under a catch-all `except Exception` that turns any
raised error into the `None` sentinel. -/
def DatasetManagementMessage.factory_init_from_deserialized_json
    (domParse : DVal → Except PyErr (Option DataDomain)) (json_obj : Dict) :
    Option DatasetManagementMessageDyn :=
  match DatasetManagementMessage.factoryTry domParse json_obj with
  | .ok obj => some obj
  | .error _ => none

/-- Outcome of one Docker container run, mirroring the collaborator contract
`run(image, command, remove) -> raw output` that raises `ContainerError` on a
non-zero exit and may raise other exceptions on other failures. -/
inductive ContainerRunResult
  | output (logs : String)
  | containerError
  | otherError (msg : String)

/-- Modelled from the spec: the partitioner service's external collaborators
(data-service client and Docker executor) and per-pass nondeterminism (the
generated uuid), plus the configured image name.  `dataService` is the
spec's `async_make_request(DatasetManagementMessage) ->
DatasetManagementResponse` contract. -/
structure Env where
  uuid : String
  image_name : String
  dataService : DatasetManagementMessage → DatasetManagementResponse
  runContainer : String → List DVal → ContainerRunResult

/-- The SEARCH request that `_async_find_hydrofabric_dataset_name` builds:
action SEARCH with category HYDROFABRIC, then a domain of single-valued
`data_id` and `uid` restrictions over the NGen GeoJSON hydrofabric format,
assigned through the `data_domain` setter. -/
def hydrofabricSearchRequest (data_id uid : DVal) : DatasetManagementMessage :=
  { action := .SEARCH, dataset_name := none, is_read_only_dataset := false,
    category := some .HYDROFABRIC, data := none, data_location := none,
    is_pending_data := false,
    data_domain := some ⟨.NGEN_GEOJSON_HYDROFABRIC,
      [⟨"data_id", [data_id]⟩, ⟨"uid", [uid]⟩]⟩ }

/-- Embedding of `_async_find_hydrofabric_dataset_name`: construct the SEARCH
request (constructor errors would propagate), set its domain, round-trip to
the data service, and return the response's dataset name on success, else
`None`. -/
def asyncFindHydrofabricDatasetName (env : Env) (data_id uid : DVal) :
    Except PyErr (Option DVal) := do
  let data_request ← DatasetManagementMessage.init .SEARCH none false (some .HYDROFABRIC)
      none none false
  let data_request := { data_request with
    data_domain := some ⟨.NGEN_GEOJSON_HYDROFABRIC,
      [⟨"data_id", [data_id]⟩, ⟨"uid", [uid]⟩]⟩ }
  let response := env.dataService data_request
  return if response.success then response.dataset_name else none

/-- The CREATE request that `_async_create_new_partitioning_dataset` builds
for a given generated dataset name: action CREATE requires both the name and
the CONFIG category. -/
def partitioningCreateRequest (dataset_name : String) : DatasetManagementMessage :=
  { action := .CREATE, dataset_name := some dataset_name, is_read_only_dataset := false,
    category := some .CONFIG, data := none, data_location := none,
    is_pending_data := false, data_domain := none }

/-- Embedding of `_async_create_new_partitioning_dataset`: generate the name
`partition-config-<uuid>`, request creation from the data service, and
return the pair of name and response `data_id` on success, else both
`None`. -/
def asyncCreateNewPartitioningDataset (env : Env) :
    Except PyErr (Option String × Option DVal) := do
  let dataset_name := "partition-config-" ++ env.uuid
  let request ← DatasetManagementMessage.init .CREATE (some dataset_name) false (some .CONFIG)
      none none false
  let response := env.dataService request
  return if response.success then (some dataset_name, response.data_id) else (none, none)

/-- The command list that `_execute_partitioner_container` builds for the
container run. -/
def partitionerCommand (num_partitions : Nat) (hydrofabric_dataset_name
    partition_dataset_name : DVal) (catchment_file_name nexus_file_name : String)
    (nexus_id_subset_str catchment_id_subset_str : String) : List DVal :=
  [.str "--hydrofabric-dataset", hydrofabric_dataset_name,
   .str "--partition-dataset", partition_dataset_name,
   .str "--num-partitions", .str (toString num_partitions),
   .str "--catchment-data-file", .str catchment_file_name,
   .str "--nexus-data-file", .str nexus_file_name,
   .str "--nexus-subset", .str nexus_id_subset_str,
   .str "--catchment-subset", .str catchment_id_subset_str]

/-- Embedding of `_execute_partitioner_container`: `None` file names become
the defaults, the command is assembled, and the container is run; a normal
run returns `(True, logs)`, a `ContainerError` (non-zero exit) is caught and
returns `(False, None)` without raising, and any other execution error is
re-raised as a `RuntimeError`. -/
def executePartitionerContainer (env : Env) (num_partitions : Nat)
    (hydrofabric_dataset_name partition_dataset_name : DVal)
    (catchment_file_name nexus_file_name : Option String)
    (nexus_id_subset_str catchment_id_subset_str : String) :
    Except PyErr (Bool × Option String) :=
  let catchment := catchment_file_name.getD "catchment_data.geojson"
  let nexus := nexus_file_name.getD "nexus_data.geojson"
  let command := partitionerCommand num_partitions hydrofabric_dataset_name
      partition_dataset_name catchment nexus nexus_id_subset_str catchment_id_subset_str
  match env.runContainer env.image_name command with
  | .output logs => .ok (true, some logs)
  | .containerError => .ok (false, none)
  | .otherError msg =>
      .error (.runtimeError ("Could not successfully execute partitioner Docker container: " ++ msg))

/-- The inner double loop of `_find_required_hydrofabric_details`, run over
the flattened in-order list of discrete restrictions of the job's
HYDROFABRIC-category requirements, threading the current `data_id` and `uid`
candidates: restrictions without exactly one value are skipped; a
single-valued `data_id` or `uid` restriction updates its slot and returns
early when the other slot is already filled. -/
def findHydrofabricDetailsAux :
    List DiscreteRestriction → Option DVal → Option DVal → Option DVal × Option DVal
  | [], data_id, uid => (data_id, uid)
  | restriction :: rest, data_id, uid =>
    match restriction.values with
    | [v] =>
        if restriction.var = "data_id" then
          if uid.isSome then (some v, uid)
          else findHydrofabricDetailsAux rest (some v) uid
        else if restriction.var = "uid" then
          if data_id.isSome then (data_id, some v)
          else findHydrofabricDetailsAux rest data_id (some v)
        else findHydrofabricDetailsAux rest data_id uid
    | _ => findHydrofabricDetailsAux rest data_id uid

/-- Embedding of `_find_required_hydrofabric_details`: scan the job's
HYDROFABRIC requirements in order, and within each the domain's discrete
restrictions in order, extracting single-valued `data_id` and `uid`
bindings. -/
def findRequiredHydrofabricDetails (job : Job) : Option DVal × Option DVal :=
  findHydrofabricDetailsAux
    (((job.data_requirements.filter (fun r => r.category = DataCategory.HYDROFABRIC)).map
        (fun r => r.domain.discrete_restrictions)).flatten)
    none none

/-- The `try` body of one job's treatment in `manage_job_partitioning`:
extract the hydrofabric details (raising `DmodRuntimeError` when either is
missing), look up the hydrofabric dataset name (raising when absent), create
the new partition-config dataset (raising when name or data id is absent),
run the partitioner container, and on a truthy result append the new CONFIG
data requirement for the created dataset and advance the job to
AWAITING_ALLOCATION, else mark it PARTITIONING_FAILED. -/
def manageJobPartitioningTry (env : Env) (job : Job) : Except PyErr Job := do
  let details := findRequiredHydrofabricDetails job
  match details.1, details.2 with
  | some hy_data_id, some hy_uid =>
    let hydrofabric_dataset_name ← asyncFindHydrofabricDatasetName env hy_data_id hy_uid
    match hydrofabric_dataset_name with
    | none =>
        throw (.dmodRuntimeError ("Cannot find hydrofabric dataset name for job " ++
          job.job_id ++ " awaiting partitioning."))
    | some hf_name =>
      let created ← asyncCreateNewPartitioningDataset env
      match created.1, created.2 with
      | some part_dataset_name, some part_dataset_data_id =>
        let runResult ← executePartitionerContainer env job.cpu_count hf_name
            (.str part_dataset_name) none none "" ""
        if runResult.1 then
          let data_id_restriction : DiscreteRestriction := ⟨"data_id", [part_dataset_data_id]⟩
          let domain : DataDomain := ⟨.NGEN_PARTITION_CONFIG, [data_id_restriction]⟩
          let requirement : DataRequirement :=
            ⟨domain, true, .CONFIG, some part_dataset_name⟩
          return { job with
            data_requirements := job.data_requirements ++ [requirement],
            status_step := .AWAITING_ALLOCATION }
        else
          return { job with status_step := .PARTITIONING_FAILED }
      | _, _ =>
          throw (.dmodRuntimeError ("Cannot create new partition config dataset for job " ++
            job.job_id ++ " awaiting partitioning."))
  | _, _ =>
      throw (.dmodRuntimeError ("Cannot get hydrofabric dataset details for job " ++
        job.job_id ++ " awaiting partitioning."))

/-- One polling pass of `manage_job_partitioning` restricted to a single
job: jobs not in AWAITING_PARTITIONING are skipped untouched; otherwise the
`try` body runs, and the catch-all `except Exception` marks the job
PARTITIONING_FAILED (any raise happens before the body mutates the job).
The subsequent best-effort `save_job` swallows persistence errors and never
changes the in-memory job. -/
def processJobOnePass (env : Env) (job : Job) : Job :=
  if job.status_step ≠ JobExecStep.AWAITING_PARTITIONING then job
  else
    match manageJobPartitioningTry env job with
    | .ok updated => updated
    | .error _ => { job with status_step := .PARTITIONING_FAILED }

/-- One full polling pass over the active jobs, in enumeration order. -/
def managePartitioningPass (env : Env) (active_jobs : List Job) : List Job :=
  active_jobs.map (processJobOnePass env)

/-! Helper lemmas about the dict embedding. -/

theorem dictGet_dictSet_self (d : Dict) (k : String) (v : DVal) :
    dictGet (dictSet d k v) k = some v := by
  induction d with
  | nil => simp [dictGet, dictSet]
  | cons p rest ih =>
      by_cases h : p.1 == k
      · simp [dictGet, dictSet, h]
      · simpa [dictGet, dictSet, h] using ih

theorem dictGet_dictSet_ne (d : Dict) (k k' : String) (v : DVal) (h : (k' == k) = false) :
    dictGet (dictSet d k' v) k = dictGet d k := by
  induction d with
  | nil => simp [dictGet, dictSet, h]
  | cons p rest ih =>
      by_cases hp : p.1 == k'
      · have hpk : (p.1 == k) = false := by
          have : p.1 = k' := by simpa using hp
          simpa [this] using h
        simp [dictGet, dictSet, hp, hpk, h]
      · by_cases hk : p.1 == k
        · simp [dictGet, dictSet, hp, hk]
        · simpa [dictGet, dictSet, hp, hk] using ih

theorem dictContains_isSome (d : Dict) (k : String) (h : dictContains d k = true) :
    (dictGet d k).isSome = true := h

/-- C7: constructing a `SchedulerRequestMessage` with `cpus = None` yields
`cpus = 4` with the cpus-unset marker true (false, with the given value,
when `cpus` is supplied); with `mem = None` yields `memory = 500000` with
the memory-unset marker true (false, with the given value, when supplied);
and an absent/`None` or blank `allocation_paradigm` yields `SINGLE_NODE`,
while a non-blank string is kept verbatim. -/
theorem schedulerRequest_default_substitution (mr : ModelExecRequest) (u : String)
    (c m : Int) (copt mopt : Option Int) (apopt : Option String) (s : String) :
    ((SchedulerRequestMessage.init mr u none mopt apopt).cpus = 4 ∧
     (SchedulerRequestMessage.init mr u none mopt apopt).cpus_unset = true) ∧
    ((SchedulerRequestMessage.init mr u (some c) mopt apopt).cpus = c ∧
     (SchedulerRequestMessage.init mr u (some c) mopt apopt).cpus_unset = false) ∧
    ((SchedulerRequestMessage.init mr u copt none apopt).memory = 500000 ∧
     (SchedulerRequestMessage.init mr u copt none apopt).memory_unset = true) ∧
    ((SchedulerRequestMessage.init mr u copt (some m) apopt).memory = m ∧
     (SchedulerRequestMessage.init mr u copt (some m) apopt).memory_unset = false) ∧
    ((SchedulerRequestMessage.init mr u copt mopt none).allocation_paradigm = "SINGLE_NODE") ∧
    (pyStrip s = "" →
      (SchedulerRequestMessage.init mr u copt mopt (some s)).allocation_paradigm = "SINGLE_NODE") ∧
    (pyStrip s ≠ "" →
      (SchedulerRequestMessage.init mr u copt mopt (some s)).allocation_paradigm = s) := by
  refine ⟨⟨rfl, rfl⟩, ⟨rfl, rfl⟩, ⟨rfl, rfl⟩, ⟨rfl, rfl⟩, rfl, ?_, ?_⟩
  · intro h
    simp [SchedulerRequestMessage.init, h]
  · intro h
    simp [SchedulerRequestMessage.init, h]

/-- Closed witness for C7 at concrete inputs. -/
theorem schedulerRequest_default_substitution_witness :
    ((SchedulerRequestMessage.init ⟨"req"⟩ "user" none none none).cpus = 4 ∧
     (SchedulerRequestMessage.init ⟨"req"⟩ "user" none none none).cpus_unset = true) ∧
    ((SchedulerRequestMessage.init ⟨"req"⟩ "user" none none none).memory = 500000 ∧
     (SchedulerRequestMessage.init ⟨"req"⟩ "user" none none none).memory_unset = true) ∧
    (SchedulerRequestMessage.init ⟨"req"⟩ "user" none none none).allocation_paradigm =
      "SINGLE_NODE" ∧
    (pyStrip " " = "" ∧
      (SchedulerRequestMessage.init ⟨"req"⟩ "user" none none (some " ")).allocation_paradigm =
        "SINGLE_NODE") ∧
    (pyStrip "MULTI" ≠ "" ∧
      (SchedulerRequestMessage.init ⟨"req"⟩ "user" none none (some "MULTI")).allocation_paradigm =
        "MULTI") :=
  ⟨(schedulerRequest_default_substitution ⟨"req"⟩ "user" 0 0 none none none " ").1,
   (schedulerRequest_default_substitution ⟨"req"⟩ "user" 0 0 none none none " ").2.2.1,
   (schedulerRequest_default_substitution ⟨"req"⟩ "user" 0 0 none none none " ").2.2.2.2.1,
   ⟨by decide,
    (schedulerRequest_default_substitution ⟨"req"⟩ "user" 0 0 none none none " ").2.2.2.2.2.1
      (by decide)⟩,
   ⟨by decide,
    (schedulerRequest_default_substitution ⟨"req"⟩ "user" 0 0 none none none "MULTI").2.2.2.2.2.2
      (by decide)⟩⟩

/-- C9: the `job_id` accessor of a `SchedulerRequestResponse` returns the
value stored under the `job_id` key of its data map when `success` is true,
and the sentinel `-1` whenever `success` is false, regardless of the data
map's contents. -/
theorem schedulerResponse_job_id_spec (r : SchedulerRequestResponse) :
    (r.success = true → r.job_id = dictGet r.data "job_id") ∧
    (r.success = false → r.job_id = some (DVal.int (-1))) := by
  constructor <;> intro h <;> simp [SchedulerRequestResponse.job_id, h]

/-- A successful scheduler response with a stored job id. -/
def schedRespOk : SchedulerRequestResponse :=
  ⟨true, "Job Scheduled", "", [("job_id", DVal.int 7)]⟩

/-- A failed scheduler response whose data map still holds a job id. -/
def schedRespFail : SchedulerRequestResponse :=
  ⟨false, "Failed", "", [("job_id", DVal.int 7)]⟩

/-- Closed witness for C9 at concrete responses. -/
theorem schedulerResponse_job_id_spec_witness :
    (schedRespOk.success = true ∧ schedRespOk.job_id = dictGet schedRespOk.data "job_id") ∧
    (schedRespFail.success = false ∧ schedRespFail.job_id = some (DVal.int (-1))) :=
  ⟨⟨rfl, (schedulerResponse_job_id_spec schedRespOk).1 rfl⟩,
   ⟨rfl, (schedulerResponse_job_id_spec schedRespFail).2 rfl⟩⟩

/-- C8: `ManagementAction.get_for_name` maps every string to a declared
variant or `UNKNOWN` (never a lookup error): a string whose stripped,
uppercased form matches no variant name maps to `UNKNOWN`, a matching string
maps to the matched variant, and matching is case-insensitive, so "create",
"Create" and "CREATE" all map to `CREATE`. -/
theorem managementAction_get_for_name_total :
    (ManagementAction.get_for_name "create" = ManagementAction.CREATE ∧
     ManagementAction.get_for_name "Create" = ManagementAction.CREATE ∧
     ManagementAction.get_for_name "CREATE" = ManagementAction.CREATE) ∧
    (∀ s : String,
      ManagementAction.allMembers.find?
          (fun value => pyUpper value.pyName == pyUpper (pyStrip s)) = none →
        ManagementAction.get_for_name s = ManagementAction.UNKNOWN) ∧
    (∀ (s : String) (v : ManagementAction),
      ManagementAction.allMembers.find?
          (fun value => pyUpper value.pyName == pyUpper (pyStrip s)) = some v →
        ManagementAction.get_for_name s = v) := by
  refine ⟨⟨by decide, by decide, by decide⟩, ?_, ?_⟩
  · intro s h
    simp only [ManagementAction.get_for_name]
    rw [h]
  · intro s v h
    simp only [ManagementAction.get_for_name]
    rw [h]

/-- Closed witness for C8: a non-matching string maps to `UNKNOWN` and a
matching (padded, lowercase) string maps to its variant. -/
theorem managementAction_get_for_name_total_witness :
    (ManagementAction.allMembers.find?
        (fun value => pyUpper value.pyName == pyUpper (pyStrip "no-such-action")) = none ∧
     ManagementAction.get_for_name "no-such-action" = ManagementAction.UNKNOWN) ∧
    (ManagementAction.allMembers.find?
        (fun value => pyUpper value.pyName == pyUpper (pyStrip " search ")) =
          some ManagementAction.SEARCH ∧
     ManagementAction.get_for_name " search " = ManagementAction.SEARCH) :=
  ⟨⟨by decide, managementAction_get_for_name_total.2.1 "no-such-action" (by decide)⟩,
   ⟨by decide, managementAction_get_for_name_total.2.2 " search " ManagementAction.SEARCH
      (by decide)⟩⟩

/-- C10: every `DatasetManagementResponse` defines the `is_awaiting` key of
its data map: constructing with no data map, or with one lacking the key,
stores `False` under it, so the accessor is total (never a missing-key
error) and yields `False` unless the key was explicitly supplied; the
factory stores exactly its `is_awaiting` argument. -/
theorem datasetResponse_is_awaiting_invariant :
    (∀ (s : Bool) (rs ms : String) (data : Option Dict),
      ((DatasetManagementResponse.init s rs ms data).is_awaiting).isSome = true) ∧
    (∀ (s : Bool) (rs ms : String),
      (DatasetManagementResponse.init s rs ms none).is_awaiting = some (DVal.bool false)) ∧
    (∀ (s : Bool) (rs ms : String) (d : Dict), dictContains d "is_awaiting" = false →
      (DatasetManagementResponse.init s rs ms (some d)).is_awaiting =
        some (DVal.bool false)) ∧
    (∀ (a : ManagementAction) (s : Bool) (rs ms : String) (data : Option Dict) (ia : Bool)
       (dn di : Option String),
      (DatasetManagementResponse.factory_create a s rs ms data ia dn di).is_awaiting =
        some (DVal.bool ia)) := by
  have hmiss : ∀ (s : Bool) (rs ms : String) (d : Dict), dictContains d "is_awaiting" = false →
      (DatasetManagementResponse.init s rs ms (some d)).is_awaiting =
        some (DVal.bool false) := by
    intro s rs ms d h
    simp [DatasetManagementResponse.init, DatasetManagementResponse.is_awaiting, h,
      dictGet_dictSet_self]
  have hsome : ∀ (s : Bool) (rs ms : String) (data : Option Dict),
      ((DatasetManagementResponse.init s rs ms data).is_awaiting).isSome = true := by
    intro s rs ms data
    match data with
    | none => simp [DatasetManagementResponse.init, DatasetManagementResponse.is_awaiting, dictGet]
    | some d =>
        by_cases h : dictContains d "is_awaiting"
        · simp only [DatasetManagementResponse.init, DatasetManagementResponse.is_awaiting, h,
            if_true]
          exact dictContains_isSome d "is_awaiting" h
        · rw [hmiss s rs ms d (by simpa using h)]
          rfl
  refine ⟨hsome, ?_, hmiss, ?_⟩
  · intro s rs ms
    rfl
  · intro a s rs ms data ia dn di
    have hset : ∀ (d : Dict), dictGet (dictSet d "is_awaiting" (DVal.bool ia))
        "is_awaiting" = some (DVal.bool ia) := fun d => dictGet_dictSet_self d _ _
    have hbase : dictGet (dictSet (dictSet (data.getD []) "action" (DVal.action a))
        "is_awaiting" (DVal.bool ia)) "is_awaiting" = some (DVal.bool ia) := hset _
    have hstep : ∀ (d : Dict) (k : String) (v : DVal), (k == "is_awaiting") = false →
        dictGet d "is_awaiting" = some (DVal.bool ia) →
        dictGet (dictSet d k v) "is_awaiting" = some (DVal.bool ia) := by
      intro d k v hk hd
      rw [dictGet_dictSet_ne d "is_awaiting" k v hk]
      exact hd
    have hfinal : dictGet (DatasetManagementResponse.factory_create a s rs ms data ia dn di).data
        "is_awaiting" = some (DVal.bool ia) := by
      simp only [DatasetManagementResponse.factory_create]
      cases di with
      | none =>
          cases dn with
          | none =>
              simp only [DatasetManagementResponse.init]
              rw [if_pos]
              · exact hbase
              · simp [dictContains, hbase]
          | some n =>
              have h1 := hstep _ "dataset_name" (DVal.str n) (by decide) hbase
              simp only [DatasetManagementResponse.init]
              rw [if_pos]
              · exact h1
              · simp [dictContains, h1]
      | some i =>
          have h1 := hstep _ "data_id" (DVal.str i) (by decide) hbase
          cases dn with
          | none =>
              simp only [DatasetManagementResponse.init]
              rw [if_pos]
              · exact h1
              · simp [dictContains, h1]
          | some n =>
              have h2 := hstep _ "dataset_name" (DVal.str n) (by decide) h1
              simp only [DatasetManagementResponse.init]
              rw [if_pos]
              · exact h2
              · simp [dictContains, h2]
    exact hfinal

/-- Closed witness for C10: a data map lacking the key gets `False`, and the
factory with `is_awaiting` true stores true. -/
theorem datasetResponse_is_awaiting_invariant_witness :
    (dictContains [("dataset_name", DVal.str "ds")] "is_awaiting" = false ∧
     (DatasetManagementResponse.init true "Success" ""
        (some [("dataset_name", DVal.str "ds")])).is_awaiting = some (DVal.bool false)) ∧
    ((DatasetManagementResponse.init true "Success" "" none).is_awaiting =
       some (DVal.bool false)) ∧
    ((DatasetManagementResponse.factory_create ManagementAction.CREATE true "Success" ""
        none true (some "ds") (some "id")).is_awaiting = some (DVal.bool true)) :=
  ⟨⟨by decide,
    datasetResponse_is_awaiting_invariant.2.2.1 true "Success" ""
      [("dataset_name", DVal.str "ds")] (by decide)⟩,
   datasetResponse_is_awaiting_invariant.2.1 true "Success" "",
   datasetResponse_is_awaiting_invariant.2.2.2 ManagementAction.CREATE true "Success" "" none
     true (some "ds") (some "id")⟩

/-- C5: for every action requiring a dataset name, constructing a
`DatasetManagementMessage` with no name raises a validation error, while
constructing with a name (and a category whenever the action also requires
one) succeeds; symmetrically for actions requiring a data category. -/
theorem datasetMessage_construction_invariant (a : ManagementAction) (nm : String)
    (cat : DataCategory) (nopt : Option String) (copt : Option DataCategory) (rro : Bool)
    (dat dl : Option String) (pend : Bool) :
    (a.requires_dataset_name = true →
      ∃ e, DatasetManagementMessage.init a none rro copt dat dl pend = .error e) ∧
    (a.requires_dataset_name = true →
      (a.requires_data_category = false ∨ copt.isSome = true) →
      ∃ msg, DatasetManagementMessage.init a (some nm) rro copt dat dl pend = .ok msg) ∧
    (a.requires_data_category = true →
      ∃ e, DatasetManagementMessage.init a nopt rro none dat dl pend = .error e) ∧
    (a.requires_data_category = true →
      (a.requires_dataset_name = false ∨ nopt.isSome = true) →
      ∃ msg, DatasetManagementMessage.init a nopt rro (some cat) dat dl pend = .ok msg) := by
  refine ⟨?_, ?_, ?_, ?_⟩
  · intro h
    exact ⟨.runtimeError "Cannot create DatasetManagementMessage for action without a dataset name",
      by simp [DatasetManagementMessage.init, h]⟩
  · intro _ h2
    refine ⟨⟨a, some nm, rro, copt, dat, dl, pend, none⟩, ?_⟩
    have hc : (copt.isNone && a.requires_data_category) = false := by
      rcases h2 with h2 | h2
      · simp [h2]
      · simp [Option.isNone, Option.isSome] at h2 ⊢
        rcases copt with _ | c
        · simp at h2
        · simp
    simp [DatasetManagementMessage.init, hc]
  · intro h
    rcases hn : (nopt.isNone && a.requires_dataset_name) with _ | _
    · exact ⟨.runtimeError
        "Cannot create DatasetManagementMessage for action without a data category",
        by simp [DatasetManagementMessage.init, hn, h]⟩
    · exact ⟨.runtimeError
        "Cannot create DatasetManagementMessage for action without a dataset name",
        by simp [DatasetManagementMessage.init, hn]⟩
  · intro _ h2
    refine ⟨⟨a, nopt, rro, some cat, dat, dl, pend, none⟩, ?_⟩
    have hn : (nopt.isNone && a.requires_dataset_name) = false := by
      rcases h2 with h2 | h2
      · simp [h2]
      · simp [Option.isNone, Option.isSome] at h2 ⊢
        rcases nopt with _ | n
        · simp at h2
        · simp
    simp [DatasetManagementMessage.init, hn]

/-- Closed witness for C5 at the `CREATE` action (requires both name and
category) and the `SEARCH` action (requires only a category). -/
theorem datasetMessage_construction_invariant_witness :
    (ManagementAction.CREATE.requires_dataset_name = true ∧
     ∃ e, DatasetManagementMessage.init .CREATE none false (some .CONFIG) none none false =
       .error e) ∧
    (∃ msg, DatasetManagementMessage.init .CREATE (some "ds") false (some .CONFIG)
       none none false = .ok msg) ∧
    (ManagementAction.SEARCH.requires_data_category = true ∧
     ∃ e, DatasetManagementMessage.init .SEARCH none false none none none false = .error e) ∧
    (∃ msg, DatasetManagementMessage.init .SEARCH none false (some .HYDROFABRIC)
       none none false = .ok msg) :=
  ⟨⟨by decide,
    (datasetMessage_construction_invariant .CREATE "ds" .CONFIG none (some .CONFIG) false
      none none false).1 (by decide)⟩,
   (datasetMessage_construction_invariant .CREATE "ds" .CONFIG none (some .CONFIG) false
      none none false).2.1 (by decide) (Or.inr (by decide)),
   ⟨by decide,
    (datasetMessage_construction_invariant .SEARCH "ds" .HYDROFABRIC none none false
      none none false).2.2.1 (by decide)⟩,
   (datasetMessage_construction_invariant .SEARCH "ds" .HYDROFABRIC none none false
      none none false).2.2.2 (by decide) (Or.inl (by decide))⟩

/-- C4 evaluation: `get_task_object` run at the inputs on which the code
diverges from the claim and the method's own docstring.  With no scheduled
tasks, index `-1` passes the `len > index` guard and the subscript raises
`IndexError` instead of returning `None`; with one scheduled task, index
`-1` returns the task through Python negative indexing instead of `None`;
valid and out-of-range non-negative indices behave as documented. -/
theorem get_task_object_negative_index_eval :
    get_task_object ([] : List Nat) (-1) = .error (.indexError "list index out of range") ∧
    get_task_object [42] (-1) = .ok (some 42) ∧
    get_task_object [42] 0 = .ok (some 42) ∧
    get_task_object [42] 1 = .ok none ∧
    get_task_object ([] : List Nat) 0 = .ok none :=
  ⟨rfl, rfl, rfl, rfl, rfl⟩

/-- C6: the deserialization factory of `DatasetManagementMessage` never
propagates an error: every raise inside the `try` body (missing required
keys, an action invalid for the supplied fields, or a failing nested domain
parse, for any behavior `domParse` of the nested parser) is converted to the
`None` sentinel, and a successful body yields the constructed instance. -/
theorem datasetMessage_factory_never_raises
    (domParse : DVal → Except PyErr (Option DataDomain)) (json_obj : Dict) :
    (∀ e, DatasetManagementMessage.factoryTry domParse json_obj = .error e →
      DatasetManagementMessage.factory_init_from_deserialized_json domParse json_obj = none) ∧
    (∀ msg, DatasetManagementMessage.factoryTry domParse json_obj = .ok msg →
      DatasetManagementMessage.factory_init_from_deserialized_json domParse json_obj =
        some msg) ∧
    (DatasetManagementMessage.factory_init_from_deserialized_json domParse json_obj = none ∨
     ∃ msg, DatasetManagementMessage.factory_init_from_deserialized_json domParse json_obj =
       some msg) := by
  refine ⟨?_, ?_, ?_⟩
  · intro e h
    simp [DatasetManagementMessage.factory_init_from_deserialized_json, h]
  · intro msg h
    simp [DatasetManagementMessage.factory_init_from_deserialized_json, h]
  · rcases h : DatasetManagementMessage.factoryTry domParse json_obj with e | msg
    · exact Or.inl (by
        simp [DatasetManagementMessage.factory_init_from_deserialized_json, h])
    · exact Or.inr ⟨msg, by
        simp [DatasetManagementMessage.factory_init_from_deserialized_json, h]⟩

/-- A nested domain parser that always raises, for the C6 witness. -/
def failingDomParse : DVal → Except PyErr (Option DataDomain) :=
  fun _ => .error (.runtimeError "domain parse failed")

/-- A structured map with all required keys and a domain entry, for the C6
witness. -/
def jsonWithDomain : Dict :=
  [("action", DVal.action .SEARCH), ("category", DVal.category .HYDROFABRIC),
   ("read_only", DVal.bool false), ("pending_data", DVal.bool false),
   ("data_domain", DVal.str "domain-blob")]

/-- Closed witness for C6: an empty map (missing the required `action` key)
and a map whose nested domain parse raises both yield the `None` sentinel. -/
theorem datasetMessage_factory_never_raises_witness :
    (DatasetManagementMessage.factoryTry failingDomParse [] = .error (.keyError "action") ∧
     DatasetManagementMessage.factory_init_from_deserialized_json failingDomParse [] = none) ∧
    (DatasetManagementMessage.factoryTry failingDomParse jsonWithDomain =
       .error (.runtimeError "domain parse failed") ∧
     DatasetManagementMessage.factory_init_from_deserialized_json failingDomParse
       jsonWithDomain = none) :=
  ⟨⟨rfl, (datasetMessage_factory_never_raises failingDomParse []).1 (.keyError "action") rfl⟩,
   ⟨rfl, (datasetMessage_factory_never_raises failingDomParse jsonWithDomain).1
      (.runtimeError "domain parse failed") rfl⟩⟩

/-! Evaluation lemmas for the service helpers, used by the orchestration
claims. -/

theorem asyncFind_eval (env : Env) (d u : DVal) :
    asyncFindHydrofabricDatasetName env d u =
      .ok (if (env.dataService (hydrofabricSearchRequest d u)).success
           then (env.dataService (hydrofabricSearchRequest d u)).dataset_name
           else none) := rfl

theorem asyncCreate_eval (env : Env) :
    asyncCreateNewPartitioningDataset env =
      .ok (if (env.dataService
              (partitioningCreateRequest ("partition-config-" ++ env.uuid))).success
           then (some ("partition-config-" ++ env.uuid),
                 (env.dataService
                   (partitioningCreateRequest ("partition-config-" ++ env.uuid))).data_id)
           else (none, none)) := rfl

theorem findAux_uid_stays_none :
    ∀ (rs : List DiscreteRestriction) (d : Option DVal),
      (∀ r ∈ rs, r.var = "uid" → r.values.length ≠ 1) →
      (findHydrofabricDetailsAux rs d none).2 = none := by
  intro rs
  induction rs with
  | nil => intro d _; rfl
  | cons r rest ih =>
      intro d h
      have hr : r.var = "uid" → r.values.length ≠ 1 := h r (List.mem_cons_self r rest)
      have hrest : ∀ x ∈ rest, x.var = "uid" → x.values.length ≠ 1 :=
        fun x hx => h x (List.mem_cons_of_mem r hx)
      rcases hv : r.values with _ | ⟨v, _ | ⟨v2, vs⟩⟩
      · simp only [findHydrofabricDetailsAux, hv]
        exact ih d hrest
      · by_cases hvar : r.var = "data_id"
        · simp only [findHydrofabricDetailsAux, hv, hvar, if_true, Option.isSome_none,
            Bool.false_eq_true, if_false]
          exact ih (some v) hrest
        · by_cases hvar2 : r.var = "uid"
          · exact absurd (by rw [hv]; rfl) (hr hvar2)
          · simp only [findHydrofabricDetailsAux, hv, hvar, hvar2, if_false]
            exact ih d hrest
      · simp only [findHydrofabricDetailsAux, hv]
        exact ih d hrest

theorem findDetails_uid_none (job : Job)
    (h : ∀ req ∈ job.data_requirements, req.category = DataCategory.HYDROFABRIC →
      ∀ r ∈ req.domain.discrete_restrictions, r.var = "uid" → r.values.length ≠ 1) :
    (findRequiredHydrofabricDetails job).2 = none := by
  apply findAux_uid_stays_none
  intro r hr
  rw [List.mem_flatten] at hr
  obtain ⟨l, hl, hrl⟩ := hr
  rw [List.mem_map] at hl
  obtain ⟨req, hreq, rfl⟩ := hl
  rw [List.mem_filter] at hreq
  exact h req hreq.1 (by simpa using hreq.2) r hrl

/-- C3: a job in AWAITING_PARTITIONING whose HYDROFABRIC requirements bind
`uid` only through a discrete restriction with more than one allowed value
(no single-valued `uid` restriction exists) yields no uid from the
hydrofabric-detail extraction, and ends the polling pass with status step
PARTITIONING_FAILED, for every data-service and executor behavior. -/
theorem multivalued_uid_fails_pass (env : Env) (job : Job)
    (h1 : job.status_step = JobExecStep.AWAITING_PARTITIONING)
    (h2 : ∃ req ∈ job.data_requirements, req.category = DataCategory.HYDROFABRIC ∧
      ∃ r ∈ req.domain.discrete_restrictions, r.var = "uid" ∧ 1 < r.values.length)
    (h3 : ∀ req ∈ job.data_requirements, req.category = DataCategory.HYDROFABRIC →
      ∀ r ∈ req.domain.discrete_restrictions, r.var = "uid" → r.values.length ≠ 1) :
    (findRequiredHydrofabricDetails job).2 = none ∧
    processJobOnePass env job = { job with status_step := JobExecStep.PARTITIONING_FAILED } := by
  have huid : (findRequiredHydrofabricDetails job).2 = none := findDetails_uid_none job h3
  refine ⟨huid, ?_⟩
  have hbody : ∃ e, manageJobPartitioningTry env job = .error e := by
    simp only [manageJobPartitioningTry]
    rcases hfst : (findRequiredHydrofabricDetails job).1 with _ | d1 <;> rw [huid] <;>
      exact ⟨_, rfl⟩
  obtain ⟨e, he⟩ := hbody
  simp [processJobOnePass, h1, he]

/-- C1: a job in AWAITING_PARTITIONING with a HYDROFABRIC requirement whose
discrete restrictions bind `data_id` and `uid` with single values, given a
successful SEARCH response carrying a dataset name, a successful CREATE
response carrying a data id, and a successful executor invocation, ends the
polling pass in AWAITING_ALLOCATION with exactly one new data requirement
appended: category CONFIG, a domain whose `data_id` discrete restriction
holds the created dataset's data id, and fulfillment bound to the created
dataset's name. -/
theorem successful_partitioning_advances_job (env : Env) (job : Job) (d u hn pid : DVal)
    (h1 : job.status_step = JobExecStep.AWAITING_PARTITIONING)
    (h2 : ∃ req ∈ job.data_requirements, req.category = DataCategory.HYDROFABRIC ∧
      (∃ r ∈ req.domain.discrete_restrictions, r.var = "data_id" ∧ r.values.length = 1) ∧
      (∃ r ∈ req.domain.discrete_restrictions, r.var = "uid" ∧ r.values.length = 1))
    (hdetails : findRequiredHydrofabricDetails job = (some d, some u))
    (hsearch_succ : (env.dataService (hydrofabricSearchRequest d u)).success = true)
    (hsearch_name : (env.dataService (hydrofabricSearchRequest d u)).dataset_name = some hn)
    (hcreate_succ : (env.dataService
      (partitioningCreateRequest ("partition-config-" ++ env.uuid))).success = true)
    (hcreate_id : (env.dataService
      (partitioningCreateRequest ("partition-config-" ++ env.uuid))).data_id = some pid)
    (hexec : ∃ logs, env.runContainer env.image_name
      (partitionerCommand job.cpu_count hn (DVal.str ("partition-config-" ++ env.uuid))
        "catchment_data.geojson" "nexus_data.geojson" "" "") = .output logs) :
    processJobOnePass env job = { job with
      data_requirements := job.data_requirements ++
        [⟨⟨DataFormat.NGEN_PARTITION_CONFIG, [⟨"data_id", [pid]⟩]⟩, true, DataCategory.CONFIG,
          some ("partition-config-" ++ env.uuid)⟩],
      status_step := JobExecStep.AWAITING_ALLOCATION } := by
  obtain ⟨logs, hlogs⟩ := hexec
  have hbody : manageJobPartitioningTry env job = .ok { job with
      data_requirements := job.data_requirements ++
        [⟨⟨DataFormat.NGEN_PARTITION_CONFIG, [⟨"data_id", [pid]⟩]⟩, true, DataCategory.CONFIG,
          some ("partition-config-" ++ env.uuid)⟩],
      status_step := JobExecStep.AWAITING_ALLOCATION } := by
    simp only [manageJobPartitioningTry, hdetails, asyncFind_eval, asyncCreate_eval,
      hsearch_succ, hsearch_name, hcreate_succ, hcreate_id, if_true,
      executePartitionerContainer, Option.getD_none, Option.getD_some, hlogs,
      Bind.bind, Except.bind, Pure.pure, Except.pure]
  rw [processJobOnePass, if_neg (by rw [h1]; simp), hbody]

/-- C2: with the same successful hydrofabric lookup and dataset creation,
an executor exiting non-zero (a `ContainerError`) makes the invoking
function return the failure pair `(False, None)` without raising, and the
job ends the polling pass in PARTITIONING_FAILED with its data requirements
unchanged. -/
theorem container_error_fails_pass (env : Env) (job : Job) (d u hn pid : DVal)
    (h1 : job.status_step = JobExecStep.AWAITING_PARTITIONING)
    (hdetails : findRequiredHydrofabricDetails job = (some d, some u))
    (hsearch_succ : (env.dataService (hydrofabricSearchRequest d u)).success = true)
    (hsearch_name : (env.dataService (hydrofabricSearchRequest d u)).dataset_name = some hn)
    (hcreate_succ : (env.dataService
      (partitioningCreateRequest ("partition-config-" ++ env.uuid))).success = true)
    (hcreate_id : (env.dataService
      (partitioningCreateRequest ("partition-config-" ++ env.uuid))).data_id = some pid)
    (hexec : env.runContainer env.image_name
      (partitionerCommand job.cpu_count hn (DVal.str ("partition-config-" ++ env.uuid))
        "catchment_data.geojson" "nexus_data.geojson" "" "") = .containerError) :
    executePartitionerContainer env job.cpu_count hn
      (DVal.str ("partition-config-" ++ env.uuid)) none none "" "" = .ok (false, none) ∧
    processJobOnePass env job =
      { job with status_step := JobExecStep.PARTITIONING_FAILED } := by
  have hrun : executePartitionerContainer env job.cpu_count hn
      (DVal.str ("partition-config-" ++ env.uuid)) none none "" "" = .ok (false, none) := by
    simp only [executePartitionerContainer, Option.getD_none, hexec]
  refine ⟨hrun, ?_⟩
  have hbody : manageJobPartitioningTry env job =
      .ok { job with status_step := JobExecStep.PARTITIONING_FAILED } := by
    simp only [manageJobPartitioningTry, hdetails, asyncFind_eval, asyncCreate_eval,
      hsearch_succ, hsearch_name, hcreate_succ, hcreate_id, if_true, hrun,
      Bind.bind, Except.bind, Pure.pure, Except.pure, Bool.false_eq_true, if_false]
  rw [processJobOnePass, if_neg (by rw [h1]; simp), hbody]

/-! Concrete fixtures for the orchestration-loop witnesses. -/

/-- A hydrofabric data requirement with single-valued `data_id` and `uid`
restrictions. -/
def hydroReqW : DataRequirement :=
  ⟨⟨.NGEN_GEOJSON_HYDROFABRIC,
    [⟨"data_id", [DVal.str "hf-data-id"]⟩, ⟨"uid", [DVal.str "hf-uid"]⟩]⟩,
   true, .HYDROFABRIC, none⟩

/-- A job awaiting partitioning with the hydrofabric requirement above. -/
def jobW : Job := ⟨"job-1", [hydroReqW], 4, .AWAITING_PARTITIONING⟩

/-- A data service answering SEARCH with a dataset name and CREATE with a
data id, both successfully. -/
def dataServiceW : DatasetManagementMessage → DatasetManagementResponse := fun m =>
  if m.action = ManagementAction.SEARCH then
    ⟨true, "Success", "",
     [("dataset_name", DVal.str "hydrofabric-ds"), ("is_awaiting", DVal.bool false)]⟩
  else
    ⟨true, "Success", "",
     [("data_id", DVal.str "new-data-id"), ("is_awaiting", DVal.bool false)]⟩

/-- An environment whose executor run succeeds. -/
def envW : Env := ⟨"uuid-1", "partitioner-image", dataServiceW, fun _ _ => .output "ok"⟩

/-- An environment whose executor exits non-zero (`ContainerError`). -/
def envW2 : Env := ⟨"uuid-1", "partitioner-image", dataServiceW, fun _ _ => .containerError⟩

/-- A job whose hydrofabric requirement binds `uid` only through a
two-valued restriction. -/
def jobW3 : Job :=
  ⟨"job-3",
   [⟨⟨.NGEN_GEOJSON_HYDROFABRIC,
      [⟨"data_id", [DVal.str "hf-data-id"]⟩,
       ⟨"uid", [DVal.str "uid-a", DVal.str "uid-b"]⟩]⟩,
     true, .HYDROFABRIC, none⟩],
   4, .AWAITING_PARTITIONING⟩

/-- Closed witness for C1 at the concrete job and environment. -/
theorem successful_partitioning_advances_job_witness :
    jobW.status_step = JobExecStep.AWAITING_PARTITIONING ∧
    (∃ req ∈ jobW.data_requirements, req.category = DataCategory.HYDROFABRIC ∧
      (∃ r ∈ req.domain.discrete_restrictions, r.var = "data_id" ∧ r.values.length = 1) ∧
      (∃ r ∈ req.domain.discrete_restrictions, r.var = "uid" ∧ r.values.length = 1)) ∧
    findRequiredHydrofabricDetails jobW =
      (some (DVal.str "hf-data-id"), some (DVal.str "hf-uid")) ∧
    (envW.dataService (hydrofabricSearchRequest (DVal.str "hf-data-id")
      (DVal.str "hf-uid"))).success = true ∧
    (envW.dataService (hydrofabricSearchRequest (DVal.str "hf-data-id")
      (DVal.str "hf-uid"))).dataset_name = some (DVal.str "hydrofabric-ds") ∧
    (envW.dataService (partitioningCreateRequest
      ("partition-config-" ++ envW.uuid))).success = true ∧
    (envW.dataService (partitioningCreateRequest
      ("partition-config-" ++ envW.uuid))).data_id = some (DVal.str "new-data-id") ∧
    processJobOnePass envW jobW = { jobW with
      data_requirements := jobW.data_requirements ++
        [⟨⟨DataFormat.NGEN_PARTITION_CONFIG, [⟨"data_id", [DVal.str "new-data-id"]⟩]⟩, true,
          DataCategory.CONFIG, some ("partition-config-" ++ envW.uuid)⟩],
      status_step := JobExecStep.AWAITING_ALLOCATION } := by
  have hex : ∃ req ∈ jobW.data_requirements, req.category = DataCategory.HYDROFABRIC ∧
      (∃ r ∈ req.domain.discrete_restrictions, r.var = "data_id" ∧ r.values.length = 1) ∧
      (∃ r ∈ req.domain.discrete_restrictions, r.var = "uid" ∧ r.values.length = 1) := by
    refine ⟨hydroReqW, ?_, rfl,
      ⟨⟨"data_id", [DVal.str "hf-data-id"]⟩, ?_, rfl, rfl⟩,
      ⟨⟨"uid", [DVal.str "hf-uid"]⟩, ?_, rfl, rfl⟩⟩
    · simp [jobW]
    · simp [hydroReqW]
    · simp [hydroReqW]
  refine ⟨rfl, hex, rfl, rfl, rfl, rfl, rfl, ?_⟩
  exact successful_partitioning_advances_job envW jobW (DVal.str "hf-data-id")
    (DVal.str "hf-uid") (DVal.str "hydrofabric-ds") (DVal.str "new-data-id")
    rfl hex rfl rfl rfl rfl rfl ⟨"ok", rfl⟩

/-- Closed witness for C2 at the concrete job and failing-executor
environment. -/
theorem container_error_fails_pass_witness :
    jobW.status_step = JobExecStep.AWAITING_PARTITIONING ∧
    findRequiredHydrofabricDetails jobW =
      (some (DVal.str "hf-data-id"), some (DVal.str "hf-uid")) ∧
    (envW2.dataService (hydrofabricSearchRequest (DVal.str "hf-data-id")
      (DVal.str "hf-uid"))).success = true ∧
    (envW2.dataService (hydrofabricSearchRequest (DVal.str "hf-data-id")
      (DVal.str "hf-uid"))).dataset_name = some (DVal.str "hydrofabric-ds") ∧
    (envW2.dataService (partitioningCreateRequest
      ("partition-config-" ++ envW2.uuid))).success = true ∧
    (envW2.dataService (partitioningCreateRequest
      ("partition-config-" ++ envW2.uuid))).data_id = some (DVal.str "new-data-id") ∧
    executePartitionerContainer envW2 jobW.cpu_count (DVal.str "hydrofabric-ds")
      (DVal.str ("partition-config-" ++ envW2.uuid)) none none "" "" = .ok (false, none) ∧
    processJobOnePass envW2 jobW =
      { jobW with status_step := JobExecStep.PARTITIONING_FAILED } := by
  refine ⟨rfl, rfl, rfl, rfl, rfl, rfl, ?_, ?_⟩
  · exact (container_error_fails_pass envW2 jobW (DVal.str "hf-data-id") (DVal.str "hf-uid")
      (DVal.str "hydrofabric-ds") (DVal.str "new-data-id")
      rfl rfl rfl rfl rfl rfl rfl).1
  · exact (container_error_fails_pass envW2 jobW (DVal.str "hf-data-id") (DVal.str "hf-uid")
      (DVal.str "hydrofabric-ds") (DVal.str "new-data-id")
      rfl rfl rfl rfl rfl rfl rfl).2

/-- Closed witness for C3 at a job whose only `uid` restriction has two
values. -/
theorem multivalued_uid_fails_pass_witness :
    jobW3.status_step = JobExecStep.AWAITING_PARTITIONING ∧
    (∃ req ∈ jobW3.data_requirements, req.category = DataCategory.HYDROFABRIC ∧
      ∃ r ∈ req.domain.discrete_restrictions, r.var = "uid" ∧ 1 < r.values.length) ∧
    (findRequiredHydrofabricDetails jobW3).2 = none ∧
    processJobOnePass envW jobW3 =
      { jobW3 with status_step := JobExecStep.PARTITIONING_FAILED } := by
  have hex : ∃ req ∈ jobW3.data_requirements, req.category = DataCategory.HYDROFABRIC ∧
      ∃ r ∈ req.domain.discrete_restrictions, r.var = "uid" ∧ 1 < r.values.length := by
    refine ⟨⟨⟨.NGEN_GEOJSON_HYDROFABRIC,
        [⟨"data_id", [DVal.str "hf-data-id"]⟩,
         ⟨"uid", [DVal.str "uid-a", DVal.str "uid-b"]⟩]⟩,
       true, .HYDROFABRIC, none⟩, ?_, rfl,
      ⟨"uid", [DVal.str "uid-a", DVal.str "uid-b"]⟩, ?_, rfl, ?_⟩
    · simp [jobW3]
    · simp
    · simp
  have h3W : ∀ req ∈ jobW3.data_requirements, req.category = DataCategory.HYDROFABRIC →
      ∀ r ∈ req.domain.discrete_restrictions, r.var = "uid" → r.values.length ≠ 1 := by
    intro req hreq _ r hr hvar
    simp only [jobW3, List.mem_singleton] at hreq
    subst hreq
    simp only [List.mem_cons, List.mem_singleton, List.not_mem_nil, or_false] at hr
    rcases hr with rfl | rfl
    · simp at hvar
    · simp
  exact ⟨rfl, hex,
    (multivalued_uid_fails_pass envW jobW3 rfl hex h3W).1,
    (multivalued_uid_fails_pass envW jobW3 rfl hex h3W).2⟩

end DMOD
